import Mathlib

/-!
Verification of `baserock-export-git-submodules.py` (Baserock definitions to
git-submodules converter).

The script is shallowly embedded: every reconcile function is modelled as a
pure function from the probed state of the output directory to the list of
git operations the script would run, and the status-line parser
`submodule_info` is modelled directly on the characters of the subprocess
output (the script is Python 2, so `check_output` yields a `str` and
indexing yields characters).
-/

namespace BaserockExport

/-! ## Python string primitives used by the script -/

/-- Decidable list-prefix test, used to model Python's `str.endswith` via
reversal. -/
def listPfx : List Char → List Char → Bool
  | [], _ => true
  | _ :: _, [] => false
  | a :: as, b :: bs => a = b && listPfx as bs

/-- Python `s.endswith(suf)`. -/
def pyEndswith (s suf : String) : Bool :=
  listPfx suf.data.reverse s.data.reverse

/-- Python `s[:-n]` for a string known to be at least `n` long
(the script only applies it after an `endswith` check). -/
def pyDropRight (s : String) (n : Nat) : String :=
  ⟨s.data.take (s.data.length - n)⟩

/-- Python `s[1:]`. -/
def pyTail (s : String) : String :=
  ⟨s.data.drop 1⟩

/-- Python `os.path.basename` on POSIX: everything after the last `/`. -/
def basename (s : String) : String :=
  ⟨(s.data.reverse.takeWhile (fun c => c ≠ '/')).reverse⟩

/-- Python `os.path.join(a, b)` for the non-degenerate case the script uses
(`b` relative, `a` without a trailing slash). -/
def pyJoin (a b : String) : String :=
  a ++ "/" ++ b

/-! ## The status-line prober (`submodule_info`, lines 126-142)

`git submodule status <dir>` output is parsed as
`output[0]` (initialization flag) and `output[1:41]` (commit hash).
The outcome distinguishes the Python 2 `IndexError` raised by `output[0]`
on an empty string from the explicit `RuntimeError` the script raises on an
unrecognized flag character. -/

inductive ProbeResult where
  /-- Python `IndexError`: `output[0]` on empty subprocess output. -/
  | indexError : ProbeResult
  /-- The script's own `RuntimeError("Unexpected output for 'git submodule status': ...")`. -/
  | unexpectedOutput : ProbeResult
  /-- Normal return `(initialized, commit)`. -/
  | ok (initialized : Bool) (commit : List Char) : ProbeResult
  deriving DecidableEq, Repr

/-- The prober `submodule_info`, modelled on the characters of the subprocess output:
`-` means uninitialized, space or `+` means initialized, anything else
raises; the commit is `output[1:41]`. -/
def submodule_info (output : List Char) : ProbeResult :=
  match output with
  | [] => .indexError
  | c :: rest =>
    if c = '-' then .ok false (rest.take 40)
    else if c = ' ' ∨ c = '+' then .ok true (rest.take 40)
    else .unexpectedOutput

/-! ## Entry naming (shared by all four strategies)

Each of `create_or_update_repo` / `_subrepo` / `_subtree` / `_submodule`
begins with the same three lines: `name = os.path.basename(repo)` followed
by stripping a trailing `.git`. -/

/-- The entry name computed by every strategy:
`basename`, then strip a trailing `.git`. -/
def entry_name (repo : String) : String :=
  let name := basename repo
  if pyEndswith name ".git" then pyDropRight name 4 else name

/-- The name the specification describes: the final path segment of the URL,
with the `.git` suffix removed exactly when the URL ends in `.git`.
Stated from the spec's words, to be compared with `entry_name`. -/
def specEntryName (url : String) : String :=
  if pyEndswith url ".git" then pyDropRight (basename url) 4 else basename url

/-! ## The branch-override table (`DEFAULT_BRANCHES`, lines 72-75) -/

/-- Table `DEFAULT_BRANCHES`: repositories whose default branch cannot be used
when adding a submodule. -/
def DEFAULT_BRANCHES : List (String × String) :=
  [("git://git.baserock.org/delta/intltool", "baserock/morph"),
   ("git://git.baserock.org/delta/perl", "baserock/morph")]

/-- Python `DEFAULT_BRANCHES.get(repo, 'master')`. -/
def branchFor (repo : String) : String :=
  (DEFAULT_BRANCHES.lookup repo).getD "master"

/-! ## Git operations issued by the strategies

Each `subprocess.check_call` in the script becomes one constructor, carrying
the working directory it runs in and its distinguishing arguments. -/

inductive GitOp where
  /-- Creation of the output directory (`morphlib.gitdir.init`). -/
  | gitDirInit (path : String) : GitOp
  /-- Run `git submodule init` in `path` right after creation. -/
  | submoduleSubsystemInit (cwd : String) : GitOp
  /-- Run `git submodule update --init <name>` in `path`. -/
  | submoduleUpdateInit (cwd : String) (name : String) : GitOp
  /-- Run `git checkout <ref>` in the submodule working copy. -/
  | checkout (cwd : String) (ref : String) : GitOp
  /-- Run `git submodule add --branch <branch> --name <name> <repo>` in `path`. -/
  | submoduleAdd (cwd : String) (branch : String) (name : String) (repo : String) : GitOp
  /-- Run `git subtree pull --prefix <name> <repo> <branch>`. -/
  | subtreePull (cwd : String) (name : String) (repo : String) (branch : String) : GitOp
  /-- Run `git subtree add --prefix <name> <repo> <branch>`. -/
  | subtreeAdd (cwd : String) (name : String) (repo : String) (branch : String) : GitOp
  /-- Run `git subrepo pull <name> -b <branch> -r <repo>`. -/
  | subrepoPull (cwd : String) (name : String) (branch : String) (repo : String) : GitOp
  /-- Run `git subrepo clone <repo> <name> -b <branch>`. -/
  | subrepoClone (cwd : String) (repo : String) (name : String) (branch : String) : GitOp
  /-- writing `manifest.xml` into the output directory. -/
  | writeManifestFile (file : String) : GitOp
  /-- Run `git add manifest.xml` in `path`. -/
  | addFile (cwd : String) (file : String) : GitOp
  /-- Run `git commit --all --message <msg>` in `path`. -/
  | commitAll (cwd : String) (message : String) : GitOp
  deriving DecidableEq, Repr

/-- The state of one submodule entry as seen through `os.path.exists` on its
directory and `submodule_info` (initialization flag and recorded commit). -/
inductive SubmoduleState where
  | absent : SubmoduleState
  | present (initialized : Bool) (commit : String) : SubmoduleState
  deriving DecidableEq, Repr

/-! ## Pointer-submodule strategy (`create_or_update_submodule`, lines 202-238) -/

/-- The git operations `create_or_update_submodule` runs for one
`(repo, ref)` pair, given the probed state of the entry. -/
def create_or_update_submodule (path repo ref : String) (st : SubmoduleState) :
    List GitOp :=
  let name := entry_name repo
  let submodule_path := pyJoin path name
  match st with
  | .present initialized existing_commit =>
    if existing_commit = ref then
      []
    else
      (if initialized then [] else [.submoduleUpdateInit path name])
        ++ [.checkout submodule_path ref]
  | .absent =>
    let branch := branchFor repo
    [.submoduleAdd path branch name repo, .checkout submodule_path ref]

/-! ## Subtree and subrepo strategies (lines 160-200) -/

/-- The git operations of `create_or_update_subtree`, given whether the
subtree directory exists. -/
def create_or_update_subtree (path repo : String) (dirExists : Bool) :
    List GitOp :=
  let name := entry_name repo
  let branch := branchFor repo
  if dirExists then [.subtreePull path name repo branch]
  else [.subtreeAdd path name repo branch]

/-- The git operations of `create_or_update_subrepo`, given whether the
subrepo directory exists. -/
def create_or_update_subrepo (path repo : String) (dirExists : Bool) :
    List GitOp :=
  let name := entry_name repo
  let branch := branchFor repo
  if dirExists then [.subrepoPull path name branch repo]
  else [.subrepoClone path repo name branch]

/-! ## Manifest-only strategy (`create_or_update_repo`, lines 145-158)

The two `re.sub('^...', '', repo)` calls are unescaped regular expressions:
each `.` in the stored pattern matches any single character. `matchPat`
models matching such a pattern against the start of the input, returning
the rest of the input on success. -/

/-- Match a dot-wildcard pattern against the front of the input; `.` in the
pattern matches any character. Returns the input after the match. -/
def matchPat : List Char → List Char → Option (List Char)
  | [], s => some s
  | _ :: _, [] => none
  | p :: ps, c :: cs => if p = '.' ∨ p = c then matchPat ps cs else none

/-- Python `re.sub('^' + pat, '', s)`: strip a leading match of `pat`,
leave `s` unchanged when it does not match. -/
def reSubStart (pat s : String) : String :=
  match matchPat pat.data s.data with
  | some rest => ⟨rest⟩
  | none => s

/-- The project-name normalization of `create_or_update_repo`: strip the two
known host patterns, then unconditionally drop one character (`repo[1:]`). -/
def normalize_repo (repo : String) : String :=
  let r1 := reSubStart "git://git.baserock.org" repo
  let r2 := reSubStart "ssh://git@git.baserock.org" r1
  pyTail r2

/-- One `<project>` element of the generated manifest. -/
structure Project where
  name : String
  path : String
  remote : String
  revision : String
  deriving DecidableEq, Repr

/-- One `<remote>` element of the generated manifest. -/
structure Remote where
  name : String
  fetch : String
  deriving DecidableEq, Repr

/-- The generated `manifest.xml` document: its remote elements and its
project elements, in document order. -/
structure Manifest where
  remotes : List Remote
  projects : List Project
  deriving DecidableEq, Repr

/-- The `<project>` element `create_or_update_repo` appends for one pair. -/
def create_or_update_repo (repo ref : String) : Project :=
  { name := normalize_repo repo
    path := entry_name repo
    remote := "baserock"
    revision := ref }

/-- The manifest document built by `create_or_update_git_megarepo` in `repo`
mode: one fixed remote, then one project per desired pair. -/
def build_manifest (pairs : List (String × String)) : Manifest :=
  { remotes := [{ name := "baserock", fetch := "git://git.baserock.org" }]
    projects := pairs.map (fun pr => create_or_update_repo pr.1 pr.2) }

/-! ## The director (`create_or_update_git_megarepo`, lines 240-276) -/

/-- The per-entry operations of the director loop in submodule mode, with
the probe of each entry abstracted as a function of its name. -/
def submodule_entry_ops (path : String) :
    List (String × String) → (String → SubmoduleState) → List GitOp
  | [], _ => []
  | pr :: rest, probe =>
    create_or_update_submodule path pr.1 pr.2 (probe (entry_name pr.1))
      ++ submodule_entry_ops path rest probe

/-- All operations of one `create_or_update_git_megarepo` run:
initialization when the output directory is missing, the per-entry loop
dispatched on `mode`, the manifest write and `git add` in `repo` mode, and
the unconditional final `git commit --all`. Modes outside `MODES` never
reach this function (`main` validates first), so the dead `else` branch of
the loop contributes nothing. -/
def create_or_update_git_megarepo (path : String) (pathExists : Bool)
    (pairs : List (String × String)) (mode : String)
    (probe : String → SubmoduleState) : List GitOp :=
  (if pathExists then [] else [.gitDirInit path, .submoduleSubsystemInit path])
    ++ (if mode = "submodule" then submodule_entry_ops path pairs probe
        else if mode = "subtree" then
          pairs.flatMap (fun pr =>
            create_or_update_subtree path pr.1 (probe (entry_name pr.1) ≠ .absent))
        else if mode = "subrepo" then
          pairs.flatMap (fun pr =>
            create_or_update_subrepo path pr.1 (probe (entry_name pr.1) ≠ .absent))
        else [])
    ++ (if mode = "repo" then
          [.writeManifestFile (pyJoin path "manifest.xml"), .addFile path "manifest.xml"]
        else [])
    ++ [.commitAll path ("Add/update " ++ mode ++ "s")]

/-- Whether an operation stages a change that the final `git commit --all`
would capture (gitlink moves, submodule additions, the staged manifest). -/
def stagesChange : GitOp → Bool
  | .gitDirInit _ => false
  | .submoduleSubsystemInit _ => false
  | .submoduleUpdateInit _ _ => false
  | .commitAll _ _ => false
  | .writeManifestFile _ => false
  | _ => true

/-- The `subprocess.check_call` semantics for a run of operations: `git commit`
exits non-zero when nothing is staged, and `check_call` turns that into a
raised `CalledProcessError` that aborts the run. `staged` counts the
changes accumulated since the last commit. -/
def run_ops : List GitOp → Nat → Except String Unit
  | [], _ => .ok ()
  | op :: rest, staged =>
    match op with
    | .commitAll _ _ =>
      if staged = 0 then .error "CalledProcessError: git commit exited 1 (nothing to commit)"
      else run_ops rest 0
    | _ => run_ops rest (staged + (if stagesChange op then 1 else 0))

/-! ## `main` (lines 279-298) -/

/-- List `MODES`: the accepted `--mode` values. -/
def MODES : List String := ["submodule", "subtree", "subrepo", "repo"]

/-- Function `main` after argument parsing: an unsupported mode logs the accepted set
and calls the bare builtin `exit()`, which raises `SystemExit(None)` and
terminates the process with exit status 0, before any access to the output
directory; a supported mode proceeds to the director. -/
def main_model (mode path : String) (pathExists : Bool)
    (pairs : List (String × String)) (probe : String → SubmoduleState) :
    Except Nat (List GitOp) :=
  if MODES.contains mode then
    .ok (create_or_update_git_megarepo path pathExists pairs mode probe)
  else
    .error 0

/-! ## Helper lemmas -/

/-- A pattern all of whose characters satisfy `p` is a prefix of
`l.takeWhile p` exactly when it is a prefix of `l`. -/
lemma listPfx_takeWhile (p : Char → Bool) :
    ∀ (pat l : List Char), (∀ c ∈ pat, p c) →
      listPfx pat (l.takeWhile p) = listPfx pat l := by
  intro pat
  induction pat with
  | nil => intro l _; rfl
  | cons a as ih =>
    intro l h
    cases l with
    | nil => rfl
    | cons b bs =>
      by_cases hb : p b
      · simp only [List.takeWhile_cons, hb, listPfx]
        rw [ih bs (fun c hc => h c (List.mem_cons_of_mem _ hc))]
      · have ha : p a := h a (List.mem_cons_self a as)
        have hab : ¬ (a = b) := fun hcontra => hb (hcontra ▸ ha)
        simp only [List.takeWhile_cons, hb, if_neg, listPfx, decide_eq_true_eq]
        simp [hab]

/-- A string ends in `.git` exactly when its final path segment does. -/
lemma pyEndswith_basename (s : String) :
    pyEndswith (basename s) ".git" = pyEndswith s ".git" := by
  show listPfx ".git".data.reverse (s.data.reverse.takeWhile (fun c => c ≠ '/')).reverse.reverse
      = listPfx ".git".data.reverse s.data.reverse
  rw [List.reverse_reverse]
  exact listPfx_takeWhile _ _ _ (by decide)

/-! ## Claims -/

/-- Claim C5: for every repository URL, the derived entry name equals the
final path segment of the URL with a trailing `.git` suffix removed when
the URL ends in `.git`, and the final path segment unchanged otherwise.
All four strategies compute the name by the same three lines, embedded once
as `entry_name`; `specEntryName` is the specification's description. -/
theorem entry_name_matches_spec (url : String) :
    entry_name url = specEntryName url := by
  show (if pyEndswith (basename url) ".git" then pyDropRight (basename url) 4
        else basename url)
      = if pyEndswith url ".git" then pyDropRight (basename url) 4 else basename url
  rw [pyEndswith_basename]

/-- Claim C3: on a status line long enough to carry the fixed-width commit
field (at least 41 characters), `submodule_info` returns uninitialized for a
leading `-`, initialized for a leading space or `+`, and raises the
unexpected-output error for any other leading character; in the non-error
cases the returned commit is exactly the 40-character field at offset 1. -/
theorem submodule_info_classification (output : List Char)
    (h : 41 ≤ output.length) :
    (output.head? = some '-' →
       submodule_info output = .ok false ((output.drop 1).take 40)) ∧
    (∀ c, output.head? = some c → (c = ' ' ∨ c = '+') →
       submodule_info output = .ok true ((output.drop 1).take 40)) ∧
    (∀ c, output.head? = some c → c ≠ '-' → c ≠ ' ' → c ≠ '+' →
       submodule_info output = .unexpectedOutput) ∧
    ((output.drop 1).take 40).length = 40 := by
  match output with
  | [] => simp at h
  | c :: rest =>
    have hlen : 40 ≤ rest.length := by
      simpa [Nat.succ_le_succ_iff] using h
    refine ⟨?_, ?_, ?_, ?_⟩
    · intro hc
      have : c = '-' := by simpa using hc
      simp [submodule_info, this]
    · intro d hd hsp
      have hcd : c = d := by simpa using hd
      subst hcd
      have hne : ¬ (c = '-') := by
        rcases hsp with hsp | hsp <;> subst hsp <;> decide
      simp [submodule_info, hne, hsp]
    · intro d hd h1 h2 h3
      have hcd : c = d := by simpa using hd
      subst hcd
      simp [submodule_info, h1, h2, h3]
    · simp [List.length_take]
      omega

/-- Witness for C3 at a concrete 41-character status line. -/
theorem submodule_info_classification_witness :
    41 ≤ ("-0123456789012345678901234567890123456789".data).length ∧
    submodule_info "-0123456789012345678901234567890123456789".data =
      .ok false ((("-0123456789012345678901234567890123456789".data).drop 1).take 40) := by
  refine ⟨by decide, ?_⟩
  exact (submodule_info_classification
    "-0123456789012345678901234567890123456789".data (by decide)).1 (by decide)

/-- Claim C10: outputs shorter than the 41-character format escape the
documented classification: the empty output fails with the Python
`IndexError` of `output[0]` rather than the script's probe-format
`RuntimeError`, and a short-but-classified line like `-abc` returns a
commit field silently shorter than 40 characters. -/
theorem submodule_info_short_input :
    submodule_info [] = .indexError ∧
    submodule_info [] ≠ .unexpectedOutput ∧
    submodule_info ('-' :: "abc".data) = .ok false "abc".data ∧
    ("abc".data).length < 40 := by
  decide

/-- Claim C4: for an absent entry, reconciliation is exactly the two-step
sequence `git submodule add` (with the branch from `DEFAULT_BRANCHES` when
the URL is a key, `master` otherwise) followed by `git checkout` of the
desired ref in the submodule working copy. -/
theorem absent_attach_then_checkout (path repo ref : String) :
    create_or_update_submodule path repo ref .absent =
      [.submoduleAdd path (branchFor repo) (entry_name repo) repo,
       .checkout (pyJoin path (entry_name repo)) ref] ∧
    (∀ b, DEFAULT_BRANCHES.lookup repo = some b → branchFor repo = b) ∧
    (DEFAULT_BRANCHES.lookup repo = none → branchFor repo = "master") := by
  refine ⟨rfl, ?_, ?_⟩
  · intro b hb
    simp [branchFor, hb]
  · intro hnone
    simp [branchFor, hnone]

/-- Witness for C4: an overridden repository attaches with its overridden
branch, then checks out the desired ref. -/
theorem absent_attach_then_checkout_witness :
    create_or_update_submodule "out" "git://git.baserock.org/delta/perl" "a1b2"
        .absent =
      [.submoduleAdd "out" "baserock/morph" "perl" "git://git.baserock.org/delta/perl",
       .checkout "out/perl" "a1b2"] ∧
    branchFor "git://git.baserock.org/delta/perl" = "baserock/morph" := by
  constructor
  · rw [(absent_attach_then_checkout "out" "git://git.baserock.org/delta/perl" "a1b2").1]
    decide
  · exact (absent_attach_then_checkout "out" "git://git.baserock.org/delta/perl"
      "a1b2").2.1 "baserock/morph" (by decide)

/-- Claim C1: an entry whose directory exists and whose probed commit
equals the desired ref gets no git operation at all, so when every desired
entry probes at its desired ref — the situation of a second run — the
director loop issues zero entry-level operations. -/
theorem submodule_reconcile_noop_at_ref (path repo ref : String) (init : Bool)
    (pairs : List (String × String)) (probe : String → SubmoduleState)
    (h : ∀ pr ∈ pairs, ∃ i, probe (entry_name pr.1) = .present i pr.2) :
    create_or_update_submodule path repo ref (.present init ref) = [] ∧
    submodule_entry_ops path pairs probe = [] := by
  refine ⟨by simp [create_or_update_submodule], ?_⟩
  induction pairs with
  | nil => rfl
  | cons pr tl ih =>
    obtain ⟨i, hi⟩ := h pr (List.mem_cons_self pr tl)
    have htl := ih (fun q hq => h q (List.mem_cons_of_mem _ hq))
    simp only [submodule_entry_ops, hi, htl]
    simp [create_or_update_submodule]

/-- Witness for C1 on a one-entry desired set already at its ref. -/
theorem submodule_reconcile_noop_at_ref_witness :
    create_or_update_submodule "out" "git://git.baserock.org/delta/foo" "abc"
      (.present true "abc") = [] ∧
    submodule_entry_ops "out" [("git://git.baserock.org/delta/foo", "abc")]
      (fun _ => .present true "abc") = [] :=
  submodule_reconcile_noop_at_ref "out" "git://git.baserock.org/delta/foo" "abc"
    true [("git://git.baserock.org/delta/foo", "abc")]
    (fun _ => .present true "abc")
    (by intro pr hpr; refine ⟨true, ?_⟩; simp at hpr; simp [hpr])

/-- Counterexample to C2: an entry probed as present-but-uninitialized whose
recorded commit already equals the desired ref is left entirely alone — no
`git submodule update --init` is run and it stays uninitialized, so not
every uninitialized entry is materialized. -/
theorem uninitialized_at_ref_skips_init :
    create_or_update_submodule "out" "git://git.baserock.org/delta/foo" "abc"
      (.present false "abc") = [] ∧
    GitOp.submoduleUpdateInit "out" "foo" ∉
      create_or_update_submodule "out" "git://git.baserock.org/delta/foo" "abc"
        (.present false "abc") := by
  decide

/-- Claim C2 as amended: an uninitialized entry whose recorded commit
differs from the desired ref is first materialized with
`git submodule update --init` and only then checked out, while an
uninitialized entry already recorded at the desired ref is left untouched
(and remains uninitialized). -/
theorem uninitialized_init_before_checkout (path repo ref c : String)
    (h : c ≠ ref) :
    create_or_update_submodule path repo ref (.present false c) =
      [.submoduleUpdateInit path (entry_name repo),
       .checkout (pyJoin path (entry_name repo)) ref] ∧
    create_or_update_submodule path repo ref (.present false ref) = [] := by
  constructor
  · simp [create_or_update_submodule, h]
  · simp [create_or_update_submodule]

/-- Witness for the amended C2 at a concrete stale uninitialized entry. -/
theorem uninitialized_init_before_checkout_witness :
    create_or_update_submodule "out" "git://git.baserock.org/delta/foo" "abc"
      (.present false "old") =
      [.submoduleUpdateInit "out" "foo", .checkout "out/foo" "abc"] ∧
    create_or_update_submodule "out" "git://git.baserock.org/delta/foo" "abc"
      (.present false "abc") = [] := by
  have h := uninitialized_init_before_checkout "out"
    "git://git.baserock.org/delta/foo" "abc" "old" (by decide)
  refine ⟨?_, h.2⟩
  rw [h.1]
  decide

/-- Claim C6 names intended behavior the code does not implement: on a run
that converges with nothing staged (here: one entry already present,
initialized, at its desired ref), the director still issues its
unconditional final `git commit --all`, which exits non-zero with nothing
to commit, so `check_call` raises and the run fails instead of succeeding. -/
theorem final_commit_unconditional_fails :
    create_or_update_git_megarepo "out" true
        [("git://git.baserock.org/delta/foo", "abc")] "submodule"
        (fun _ => .present true "abc") =
      [.commitAll "out" "Add/update submodules"] ∧
    run_ops
      (create_or_update_git_megarepo "out" true
        [("git://git.baserock.org/delta/foo", "abc")] "submodule"
        (fun _ => .present true "abc")) 0 =
      .error "CalledProcessError: git commit exited 1 (nothing to commit)" := by
  exact ⟨rfl, rfl⟩

/-- Claim C7 names intended behavior the code does not implement: an
unsupported `--mode` does terminate the process before any operation on the
output directory, but through the bare builtin `exit()`, i.e. with exit
status 0, not the non-zero status the claim requires. -/
theorem bad_mode_exits_zero :
    "frobnicate" ∉ MODES ∧
    main_model "frobnicate" "out" false [("r", "x")] (fun _ => .absent) =
      .error 0 := by
  exact ⟨by decide, rfl⟩

/-- Counterexample to C8: the desired pair `("x", "r")` yields a project
element whose `name` attribute is empty (the normalization drops the first
character of an unprefixed URL), so not every project element of every
generated manifest carries a non-empty `name`. -/
theorem manifest_empty_name_counterexample :
    (build_manifest [("x", "r")]).projects =
      [{ name := "", path := "x", remote := "baserock", revision := "r" }] ∧
    ¬ (∀ p ∈ (build_manifest [("x", "r")]).projects, p.name ≠ "") := by
  decide

/-- Claim C8 as amended: for every desired set the manifest has exactly one
remote element and one project element per pair, each project's `revision`
is exactly its pair's ref and its `remote` is `baserock`; the `name`,
`path` and `revision` attributes are moreover non-empty provided each
pair's normalized URL, entry name and ref are non-empty (degenerate URLs
such as `"x"` produce an empty `name`). -/
theorem manifest_wellformed_amended (pairs : List (String × String))
    (h : ∀ pr ∈ pairs,
      normalize_repo pr.1 ≠ "" ∧ entry_name pr.1 ≠ "" ∧ pr.2 ≠ "") :
    (build_manifest pairs).remotes.length = 1 ∧
    (build_manifest pairs).projects.length = pairs.length ∧
    (∀ pr ∈ pairs,
      create_or_update_repo pr.1 pr.2 ∈ (build_manifest pairs).projects ∧
      (create_or_update_repo pr.1 pr.2).revision = pr.2 ∧
      (create_or_update_repo pr.1 pr.2).remote = "baserock") ∧
    (∀ p ∈ (build_manifest pairs).projects,
      p.name ≠ "" ∧ p.path ≠ "" ∧ p.remote ≠ "" ∧ p.revision ≠ "") := by
  refine ⟨rfl, by simp [build_manifest], ?_, ?_⟩
  · intro pr hpr
    refine ⟨?_, rfl, rfl⟩
    simp only [build_manifest]
    exact List.mem_map_of_mem _ hpr
  · intro p hp
    simp only [build_manifest] at hp
    obtain ⟨pr, hpr, rfl⟩ := List.mem_map.1 hp
    obtain ⟨h1, h2, h3⟩ := h pr hpr
    exact ⟨h1, h2, by simp [create_or_update_repo], h3⟩

/-- Witness for the amended C8 on a one-pair desired set. -/
theorem manifest_wellformed_amended_witness :
    (build_manifest [("git://git.baserock.org/delta/foo", "abcd")]).remotes.length = 1 ∧
    (build_manifest [("git://git.baserock.org/delta/foo", "abcd")]).projects.length = 1 ∧
    (∀ p ∈ (build_manifest [("git://git.baserock.org/delta/foo", "abcd")]).projects,
      p.name ≠ "" ∧ p.path ≠ "" ∧ p.remote ≠ "" ∧ p.revision ≠ "") := by
  have h := manifest_wellformed_amended
    [("git://git.baserock.org/delta/foo", "abcd")] (by decide)
  exact ⟨h.1, h.2.1, h.2.2.2⟩

/-- Counterexample to C9: the URL `example.org/foo` matches neither host
pattern, yet its project name comes out as `xample.org/foo` — the
unconditional `repo[1:]` lost its first character. -/
theorem normalize_drops_first_char :
    matchPat "git://git.baserock.org".data "example.org/foo".data = none ∧
    matchPat "ssh://git@git.baserock.org".data "example.org/foo".data = none ∧
    normalize_repo "example.org/foo" = "xample.org/foo" ∧
    "xample.org/foo" ≠ "example.org/foo" := by
  decide

/-- Claim C9 as amended: the normalization strips a leading match of the
two host patterns (applied as unescaped regular expressions, so `.`
matches any character) and then unconditionally drops one further
character: a URL whose prefix matched loses the following separator, while
a URL matching neither pattern loses its own first character rather than
being used unchanged. -/
theorem normalize_repo_amended (url : String) :
    (∀ rest, matchPat "git://git.baserock.org".data url.data = some rest →
       matchPat "ssh://git@git.baserock.org".data rest = none →
       normalize_repo url = pyTail ⟨rest⟩) ∧
    (∀ rest, matchPat "git://git.baserock.org".data url.data = none →
       matchPat "ssh://git@git.baserock.org".data url.data = some rest →
       normalize_repo url = pyTail ⟨rest⟩) ∧
    (matchPat "git://git.baserock.org".data url.data = none →
     matchPat "ssh://git@git.baserock.org".data url.data = none →
     normalize_repo url = pyTail url) := by
  refine ⟨?_, ?_, ?_⟩
  · intro rest h1 h2
    simp [normalize_repo, reSubStart, h1, h2]
  · intro rest h1 h2
    simp [normalize_repo, reSubStart, h1, h2]
  · intro h1 h2
    simp [normalize_repo, reSubStart, h1, h2]

/-- Witness for the amended C9: a URL with either host prefix keeps
everything after the prefix and the separator. -/
theorem normalize_repo_amended_witness :
    normalize_repo "git://git.baserock.org/delta/foo" = "delta/foo" ∧
    normalize_repo "ssh://git@git.baserock.org/baserock/defs" = "baserock/defs" := by
  constructor
  · have h := (normalize_repo_amended "git://git.baserock.org/delta/foo").1
      "/delta/foo".data (by decide) (by decide)
    rw [h]
    decide
  · have h := (normalize_repo_amended "ssh://git@git.baserock.org/baserock/defs").2.1
      "/baserock/defs".data (by decide) (by decide)
    rw [h]
    decide

end BaserockExport
